import Mathlib

/-!
Shallow embedding of the MEG BIDS conversion pipeline
(`src/MEG/meg_bids_data_conversion.py`) together with proofs about its
trigger decoding, event-time correction, validation and orchestration logic.

Modelling conventions:
* Python dicts loaded from JSON are association lists of `String × Val`.
* Machine integers are `Nat`/`Int`; Python floats that hold the latency and
  sampling-rate values are modelled as exact rationals (`ℚ`).  At every input
  used in a theorem below the float computation of the source and the exact
  rational computation agree (for instance the source computes
  `0.028 * 1000 = 28.000000000000004` whose `int` is `28`, matching
  `pyInt ((28:ℚ)/1000 * 1000) = 28`).
* Raw trigger-channel samples are `Nat` (the hardware emits 0 or 5).
* Exceptions (`AssertionError`, `KeyError`, `ValueError`, `TypeError`) are an
  explicit `Err` type; fallible code returns `Except Err _`.
* Side effects (file writes, prints, subprocess calls) are a trace of
  `Action` values; external library calls are opaque trace entries except for
  `mne.find_events`, which is modelled from the spec (see `findEvents`).
-/

namespace Meg

/-- JSON-like dynamic values, as loaded from `subject_info.json`. -/
inductive Val where
  | str (s : String)
  | int (n : Int)
  | null
  | list (elems : List Val)
  | obj (fields : List (String × Val))

/-- Python exceptions raised by the script. -/
inductive Err where
  | assertError (msg : String)
  | keyError (key : String)
  | valueError (msg : String)
  | typeError (msg : String)
  deriving DecidableEq, Repr

/-- One row of the mne events array: (sample index, previous value, event code). -/
structure Event where
  onset : Nat
  prev : Nat
  code : Nat
  deriving DecidableEq, Repr

/-- The `event_channels` configuration variable: either a plain list of
channel names or the `{'stim': ..., 'resp': ...}` mapping. -/
inductive EventChannels where
  | chanList (channels : List String)
  | stimResp (stim resp : List String)
  deriving DecidableEq, Repr

/-- One entry of a subject's `meg_raw_files` list. -/
structure RawFileInfo where
  file : String
  run : String
  task : String
  deriving DecidableEq, Repr

/-- A validated subject record as unpacked at the top of `process_subject`. -/
structure SubjectInfo where
  bids_id : String
  meg_id : String
  meg_raw_dir : String
  meg_emptyroom_dir : Option String
  meg_raw_files : List RawFileInfo
  meg_bad_channels : List String
  mri_dcm_dir : Option String
  deriving DecidableEq, Repr

/-- The observable part of an `mne.io.Raw` object. -/
structure Recording where
  ch_names : List String
  data : String → List Nat
  nSamples : Nat
  sfreq : ℚ
  has_eeg : Bool

/-- The configuration module (`config.py`), restricted to the fields the
conversion logic reads. -/
structure Config where
  sourcedata_root : String
  bids_raw_root : String
  meg_system : String
  cal_file_path_triux : String
  ct_file_path_triux : String
  cal_file_path_vectorview : String
  ct_file_path_vectorview : String
  event_channels : EventChannels
  adjust_event_times : Bool
  auditory_event_names : List String
  visual_event_names : List String
  auditory_event_values : List Nat
  visual_event_values : List Nat
  audio_latency_sec : ℚ
  visual_latency_sec : ℚ
  line_freq : ℚ
  check_eeg_cmd : String

/-- The filesystem/library environment: reading a `.fif` file by path yields
a recording. -/
structure Env where
  readRaw : String → Recording

/-- Observable side effects of the pipeline, in program order. -/
inductive Action where
  | print (msg : String)
  | makeDirs (dir : String)
  | writeMegCalibration (path : String)
  | writeMegCrosstalk (path : String)
  | readRawFif (path : String)
  | copyFile (src dst : String)
  | runCommand (cmd : String)
  | writeRawBids (run task : String)
  | markChannels (chs : List String)
  | writeAnat (path : String)
  deriving DecidableEq, Repr

/-- Python `int()` applied to a rational: truncation toward zero.  Both
operands of the division are nonnegative in each branch, so the result does
not depend on which integer-division convention `/` denotes. -/
def pyInt (q : ℚ) : ℤ :=
  if 0 ≤ q then q.num / (q.den : ℤ) else -((-q).num / ((-q).den : ℤ))

/-- Python `sorted` on a list of strings: stable ascending sort. -/
def sortStrings (l : List String) : List String :=
  l.insertionSort (fun a b => a ≤ b)

/-! ### Trigger-channel configuration checking (`_check_event_channels`) -/

def stimWarnMsg : String :=
  "One or more specified stimulus channels not found in the raw data. Changing the event_channels variable to use STI101 channel only."

def respWarnMsg : String :=
  "One or more specified resp channels not found in the raw data. Changing the event_channels variable to use STI101 channel only."

def chanWarnMsg : String :=
  "One or more specified channels not found in the raw data. Changing the event_channels variable to use STI101 channel only."

def sti101NotFoundMsg : String :=
  "STI101 channel not found in the raw data. Please provide a valid stimulus channel."

def sti101AloneDictMsg : String :=
  "STI101 combines all STI channels so it should only be used by itself in a list."

def overlapMsg : String :=
  "The same channel cannot be used in both the stim and resp lists."

def sti101AloneListMsg : String :=
  "If you are using STI101 as the event channel, it should be the only channel in the event_channels list."

/-- All channel names mentioned by an `event_channels` configuration. -/
def configuredChannels : EventChannels → List String
  | .chanList channels => channels
  | .stimResp stim resp => stim ++ resp

/-- `_check_event_channels(event_channels, raw)`: validate the configured
trigger channels against the channel names of the recording.  The first
component collects the warning messages printed; the second is the returned
(possibly substituted) configuration or the raised assertion.  The
dictionary-shape assertions of the source (exactly the keys `stim`/`resp`
with list values) are enforced by the `EventChannels.stimResp` constructor. -/
def checkEventChannels (event_channels : EventChannels) (ch_names : List String) :
    List String × Except Err EventChannels :=
  match event_channels with
  | .stimResp stim resp =>
    if ∃ ch ∈ stim, ch ∉ ch_names then
      ([stimWarnMsg],
        if "STI101" ∈ ch_names then .ok (.chanList ["STI101"])
        else .error (.assertError sti101NotFoundMsg))
    else if ∃ ch ∈ resp, ch ∉ ch_names then
      ([respWarnMsg],
        if "STI101" ∈ ch_names then .ok (.chanList ["STI101"])
        else .error (.assertError sti101NotFoundMsg))
    else if "STI101" ∈ stim ∨ "STI101" ∈ resp then
      ([], .error (.assertError sti101AloneDictMsg))
    else if ∃ ch ∈ stim, ch ∈ resp then
      ([], .error (.assertError overlapMsg))
    else ([], .ok (.stimResp stim resp))
  | .chanList channels =>
    if ∃ ch ∈ channels, ch ∉ ch_names then
      ([chanWarnMsg],
        if "STI101" ∈ ch_names then .ok (.chanList ["STI101"])
        else .error (.assertError sti101NotFoundMsg))
    else if "STI101" ∈ channels then
      (if channels.length = 1 then ([], .ok (.chanList channels))
       else ([], .error (.assertError sti101AloneListMsg)))
    else ([], .ok (.chanList channels))

/-! ### Binary-to-decimal trigger conversion (`_sti_to_decimal`) -/

/-- The name pattern of the source: Python `f-string STI{i:03d}`. -/
def stiName (i : Nat) : String :=
  "STI" ++ (if i < 10 then "00" else if i < 100 then "0" else "") ++ toString i

/-- `sti_channels = [f'STI{i:03d}' for i in range(1, 17)]`. -/
def stiChannels : List String := (List.range 16).map (fun i => stiName (i + 1))

/-- `sti_decimal_lut = {ch: 2**i for i, ch in enumerate(sti_channels)}`. -/
def stiDecimalTable : List (String × Nat) :=
  stiChannels.enum.map (fun p => (p.2, 2 ^ p.1))

/-- Dictionary lookup in `sti_decimal_lut`; `none` models a `KeyError`. -/
def stiDecimalLut (ch : String) : Option Nat :=
  (stiDecimalTable.find? (fun p => p.1 == ch)).map (fun p => p.2)

/-- The decimal value a channel name carries, when it has one. -/
def stiWeight (ch : String) : Nat := (stiDecimalLut ch).getD 0

/-- Sequential fallible map: the semantics of a Python `for` loop that can
raise, stopping at the first exception. -/
def mapExcept {α β : Type} (f : α → Except Err β) : List α → Except Err (List β)
  | [] => .ok []
  | a :: t =>
    match f a with
    | .error e => .error e
    | .ok b =>
      match mapExcept f t with
      | .error e => .error e
      | .ok bs => .ok (b :: bs)

/-- The per-channel body of the loop in `_sti_to_decimal`: replace every
positive sample by the channel's looked-up decimal value and keep zero
samples at 0.  A channel name missing from the look-up table raises a
`KeyError`, exactly as `sti_decimal_lut[ch]` does. -/
def stiChannelDecode (p : String × List Nat) : Except Err (List Nat) :=
  match stiDecimalLut p.1 with
  | some w => .ok (p.2.map (fun v => if 0 < v then w else 0))
  | none => .error (.keyError p.1)

/-- `_sti_to_decimal(sti_data, event_channels)`: convert each channel row in
turn, stopping at the first `KeyError`. -/
def stiToDecimal (sti_data : List (List Nat)) (event_channels : List String) :
    Except Err (List (List Nat)) :=
  mapExcept stiChannelDecode (event_channels.zip sti_data)

/-! ### Event extraction (`_get_events_from_sti_channels`) -/

/-- `raw.get_data(picks=channels)`: one row of samples per requested
channel, in the requested order. -/
def getData (raw : Recording) (channels : List String) : List (List Nat) :=
  channels.map raw.data

/-- `np.sum(rows, axis=0)` for rows of length `n`. -/
def sumRows (rows : List (List Nat)) (n : Nat) : List Nat :=
  rows.foldl (fun acc r => acc.zipWith (fun a b => a + b) r) (List.replicate n 0)

/-- Modelled from the spec: the pulse-persistence test of the event detector
(`mne.find_events` is an external library call whose code is not part of
this repository).  The level at sample `t` must persist for `minSamples`
samples. -/
def persistsAt (xs : List Nat) (t minSamples : Nat) : Bool :=
  (List.range minSamples).all (fun k => xs.getD (t + k) 0 == xs.getD t 0)

/-- Modelled from the spec: `mne.find_events` on a single combined channel.
A new event is emitted whenever the value changes, the new level is nonzero
and it persists for at least the minimum pulse duration; the previous level
and the sample index of the transition are recorded. -/
def findEvents (xs : List Nat) (minSamples : Nat) : List Event :=
  (List.range xs.length).filterMap (fun t =>
    let prev := if t = 0 then 0 else xs.getD (t - 1) 0
    let cur := xs.getD t 0
    if cur ≠ prev ∧ cur ≠ 0 ∧ persistsAt xs t minSamples = true then
      some (Event.mk t prev cur)
    else none)

/-- Modelled from the spec: `mne.find_events` over several stim lines; each
line produces its own events and the shared output is ordered by onset. -/
def findEventsMulti (lines : List (List Nat)) (minSamples : Nat) : List Event :=
  ((lines.map (fun l => findEvents l minSamples)).flatten).insertionSort
    (fun a b => a.onset ≤ b.onset)

/-- Modelled from the spec: the fixed 2 ms minimum pulse duration expressed
in samples (`min_duration=0.002` passed to `mne.find_events`). -/
def minDurationSamples (sfreq : ℚ) : Nat := (pyInt ((2 : ℚ) / 1000 * sfreq)).toNat

/-- The part of `_get_events_from_sti_channels` that runs after
`_check_event_channels`: sort the channel lists, then either read events
directly from `STI101`, or convert the binary channels to decimal values,
sum the stimulus channels, and detect events. -/
def getEventsChecked (raw : Recording) : Except Err EventChannels → Except Err (List Event)
  | .error e => .error e
  | .ok (.chanList channels) =>
    let sorted := sortStrings channels
    if "STI101" ∈ sorted then
      .ok (findEvents (raw.data "STI101") (minDurationSamples raw.sfreq))
    else
      (stiToDecimal (getData raw sorted) sorted).map
        (fun rows => findEvents (sumRows rows raw.nSamples) (minDurationSamples raw.sfreq))
  | .ok (.stimResp stim resp) =>
    let stimSorted := sortStrings stim
    let respSorted := sortStrings resp
    match stiToDecimal (getData raw stimSorted) stimSorted with
    | .error e => .error e
    | .ok stimRows =>
      match stiToDecimal (getData raw respSorted) respSorted with
      | .error e => .error e
      | .ok respRows =>
        .ok (findEventsMulti (sumRows stimRows raw.nSamples :: respRows)
          (minDurationSamples raw.sfreq))

/-- `_get_events_from_sti_channels(raw, event_channels)`: validation warnings
plus the resulting events or the raised exception. -/
def getEventsFromStiChannels (raw : Recording) (event_channels : EventChannels) :
    List String × Except Err (List Event) :=
  ((checkEventChannels event_channels raw.ch_names).1,
   getEventsChecked raw (checkEventChannels event_channels raw.ch_names).2)

/-! ### Event-time adjustment (`process_subject`, lines 351-374) -/

/-- The sample shift for one latency: `int(latency_sec * sfreq)`. -/
def shiftSamples (latency_sec sfreq : ℚ) : Nat := (pyInt (latency_sec * sfreq)).toNat

/-- `events[np.isin(events[:, 2], values), 0] += shift`. -/
def applyShift (values : List Nat) (shift : Nat) (events : List Event) : List Event :=
  events.map (fun e => if e.code ∈ values then Event.mk (e.onset + shift) e.prev e.code else e)

def adjustHeaderMsg : String :=
  "Adjusting event times to account for the auditory and visual latencies."

def noAuditoryMsg : String :=
  "No auditory event values found in the event_info.json file. Skipping auditory event time adjustment."

def noVisualMsg : String :=
  "No visual event values found in the event_info.json file. Skipping visual event time adjustment."

/-- The `if cfg.adjust_event_times:` block of `process_subject`: shift the
auditory events by the audio latency and the visual events by the visual
latency, skipping (with a notice) whichever name list is empty. -/
def adjustEventTimes (cfg : Config) (sfreq : ℚ) (events : List Event) :
    List Action × List Event :=
  if cfg.adjust_event_times then
    let audStep :=
      if cfg.auditory_event_names.isEmpty then
        ([Action.print noAuditoryMsg], events)
      else
        (([] : List Action),
         applyShift cfg.auditory_event_values (shiftSamples cfg.audio_latency_sec sfreq) events)
    let visStep :=
      if cfg.visual_event_names.isEmpty then
        ([Action.print noVisualMsg], audStep.2)
      else
        (([] : List Action),
         applyShift cfg.visual_event_values (shiftSamples cfg.visual_latency_sec sfreq) audStep.2)
    (Action.print adjustHeaderMsg :: (audStep.1 ++ visStep.1), visStep.2)
  else ([], events)

/-! ### Subject-metadata validation (`_check_subject_info`) -/

/-- Dictionary lookup, `info.get(key)`. -/
def valLookup (info : List (String × Val)) (key : String) : Option Val :=
  (info.find? (fun p => p.1 == key)).map (fun p => p.2)

/-- Python subscript `info[key]`: a missing key raises `KeyError`. -/
def valGetItem (info : List (String × Val)) (key : String) : Except Err Val :=
  match valLookup info key with
  | some v => .ok v
  | none => .error (.keyError key)

/-- The nine keys enumerated in `required_keys` of `_check_subject_info`. -/
def required_keys : List String :=
  ["bids_id", "meg_id", "meg_raw_dir", "meg_emptyroom_dir",
   "meg_raw_files", "meg_bad_channels", "mri_id", "mri_date", "mri_dcm_dir"]

def missingKeysMsg (sub_id : String) : String :=
  "Subject " ++ sub_id ++ " is missing one or more of the required keys"

def strKeyMsg (sub_id key : String) : String :=
  "Subject " ++ sub_id ++ " " ++ key ++ " must be specified as a non-empty string"

/-- `assert type(info[key]) == str and info[key]` with its subscript lookup:
missing key is a `KeyError`, any non-string or empty-string value is the
descriptive assertion. -/
def checkStrKey (sub_id : String) (info : List (String × Val)) (key : String) :
    Except Err Unit :=
  match valGetItem info key with
  | .error e => .error e
  | .ok (.str s) => if s = "" then .error (.assertError (strKeyMsg sub_id key)) else .ok ()
  | .ok _ => .error (.assertError (strKeyMsg sub_id key))

/-- `assert op.exists(info[key])` (with `nullable = true` for the fields the
source first compares against `None`).  `os.path.exists` applied to a
non-path value is modelled as a `TypeError`. -/
def checkPathKey (fs : String → Bool) (info : List (String × Val)) (key msg : String)
    (nullable : Bool) : Except Err Unit :=
  match valGetItem info key with
  | .error e => .error e
  | .ok .null =>
    if nullable then .ok () else .error (.typeError "expected str, bytes or os.PathLike object, not NoneType")
  | .ok (.str s) => if fs s then .ok () else .error (.assertError msg)
  | .ok _ => .error (.typeError "expected str, bytes or os.PathLike object")

/-- `assert type(info[key]) == list` (and non-emptiness when required). -/
def checkListKey (info : List (String × Val)) (key msg : String) (nonempty : Bool) :
    Except Err Unit :=
  match valGetItem info key with
  | .error e => .error e
  | .ok (.list xs) =>
    if nonempty && xs.isEmpty then .error (.assertError msg) else .ok ()
  | .ok _ => .error (.assertError msg)

/-- The body of the per-subject loop of `_check_subject_info`, in source
order: required-keys assertion, the three string keys (`bids_id`, `meg_id`,
`meg_date`), `meg_raw_dir` existence, nullable `meg_emptyroom_dir`
existence, `meg_raw_files` non-empty list, `meg_bad_channels` list,
nullable `mri_dcm_dir` existence. -/
def checkSubjectRecord (fs : String → Bool) (sub_id : String)
    (info : List (String × Val)) : Except Err Unit :=
  if required_keys.all (fun k => (valLookup info k).isSome) then
    match checkStrKey sub_id info "bids_id" with
    | .error e => .error e
    | .ok _ =>
      match checkStrKey sub_id info "meg_id" with
      | .error e => .error e
      | .ok _ =>
        match checkStrKey sub_id info "meg_date" with
        | .error e => .error e
        | .ok _ =>
          match checkPathKey fs info "meg_raw_dir"
              ("Subject " ++ sub_id ++ " MEG raw data directory not found") false with
          | .error e => .error e
          | .ok _ =>
            match checkPathKey fs info "meg_emptyroom_dir"
                ("Subject " ++ sub_id ++ " MEG emptyroom data directory not found") true with
            | .error e => .error e
            | .ok _ =>
              match checkListKey info "meg_raw_files"
                  ("Subject " ++ sub_id ++ " meg_raw_files must be a non-empty list") true with
              | .error e => .error e
              | .ok _ =>
                match checkListKey info "meg_bad_channels"
                    ("Subject " ++ sub_id ++ " meg_bad_channels must be a list") false with
                | .error e => .error e
                | .ok _ =>
                  checkPathKey fs info "mri_dcm_dir"
                    ("Subject " ++ sub_id ++ " MRI dicom directory not found") true
  else .error (.assertError (missingKeysMsg sub_id))

/-- `_check_subject_info`: validate every subject record, in dictionary
order, stopping at the first raised exception. -/
def checkSubjectInfo (fs : String → Bool) :
    List (String × List (String × Val)) → Except Err Unit
  | [] => .ok ()
  | (sub_id, info) :: rest =>
    match checkSubjectRecord fs sub_id info with
    | .error e => .error e
    | .ok _ => checkSubjectInfo fs rest

/-! ### Empty-room lookup and the per-subject driver (`process_subject`) -/

def rawFileDefault : RawFileInfo := RawFileInfo.mk "" "" ""

/-- `[i for i, file in enumerate(meg_raw_files) if file['run'] == 'emptyroom']`,
generalised over the running index of `enumerate`. -/
def erIdxFrom (n : Nat) : List RawFileInfo → List Nat
  | [] => []
  | f :: fs =>
    if f.run == "emptyroom" then n :: erIdxFrom (n + 1) fs else erIdxFrom (n + 1) fs

def erIdx (files : List RawFileInfo) : List Nat := erIdxFrom 0 files

def multiErMsg (bids_id : String) : String :=
  "Multiple emptyroom files found for sub-" ++ bids_id ++ ". Please check the subject_info.json file."

def noEmptyroomMsg (bids_id : String) : String :=
  "No emptyroom file found for sub-" ++ bids_id ++ ". Proceeding without emptyroom file."

/-- Lines 292-304 of `process_subject`: find the emptyroom entries; none
means proceed without one, more than one raises `ValueError`, exactly one is
popped from the list and returned separately. -/
def locateEmptyroom (bids_id : String) (files : List RawFileInfo) :
    Except Err (Option RawFileInfo × List RawFileInfo) :=
  let er_id := erIdx files
  if er_id = [] then .ok (none, files)
  else if 1 < er_id.length then .error (.valueError (multiErMsg bids_id))
  else
    let i := er_id.headD 0
    .ok (some (files.getD i rawFileDefault), files.eraseIdx i)

/-- The actions of `process_subject` that precede the emptyroom lookup:
creating the sourcedata folder and writing the fine-calibration and
cross-talk files into the BIDS dataset. -/
def subjectHeader (cfg : Config) (si : SubjectInfo) : List Action :=
  [Action.makeDirs (cfg.sourcedata_root ++ "/sub-" ++ si.bids_id),
   Action.print ("MEG id is: " ++ si.meg_id),
   Action.writeMegCalibration
     (if cfg.meg_system = "triux" then cfg.cal_file_path_triux else cfg.cal_file_path_vectorview),
   Action.writeMegCrosstalk
     (if cfg.meg_system = "triux" then cfg.ct_file_path_triux else cfg.ct_file_path_vectorview)]

/-- One iteration of the `for meg_file_info in meg_raw_files` loop: the
EEG-location branch, event extraction, event-time adjustment, the delegated
BIDS write and bad-channel marking. -/
def processFile (cfg : Config) (env : Env) (sourcedata_dir meg_raw_dir : String)
    (bad : List String) (fi : RawFileInfo) : List Action × Except Err Unit :=
  let origPath := meg_raw_dir ++ "/" ++ fi.file
  let step :=
    if cfg.meg_system = "triux" then
      ([Action.print "The MEG system is Triux. No need to fix EEG locations.",
        Action.readRawFif origPath],
       (env.readRaw origPath, origPath))
    else
      let raw0 := env.readRaw origPath
      if raw0.has_eeg then
        let tmpPath := sourcedata_dir ++ "/" ++ fi.file
        ([Action.print "The MEG system is VectorView.",
          Action.readRawFif origPath,
          Action.copyFile origPath tmpPath,
          Action.print "Checking and fixing EEG locations.",
          Action.runCommand (cfg.check_eeg_cmd.replace "%s" tmpPath),
          Action.readRawFif tmpPath],
         (env.readRaw tmpPath, tmpPath))
      else
        ([Action.print "The MEG system is VectorView.",
          Action.readRawFif origPath,
          Action.print "No EEG channels found in the raw data. Skipping EEG location check."],
         (raw0, origPath))
  let raw := step.2.1
  let tr1 := step.1 ++
    [Action.print ("file in is: " ++ step.2.2), Action.print ("run_id is: " ++ fi.run)]
  let evres := getEventsFromStiChannels raw cfg.event_channels
  let tr2 := tr1 ++ evres.1.map Action.print
  match evres.2 with
  | .error e => (tr2, .error e)
  | .ok events =>
    let adj := adjustEventTimes cfg raw.sfreq events
    let tr3 := tr2 ++ [Action.print "Trigger value counts are:"] ++ adj.1 ++
      [Action.writeRawBids fi.run fi.task]
    (if bad = [] then tr3 else tr3 ++ [Action.markChannels bad], .ok ())

/-- The whole raw-file loop, stopping at the first raised exception. -/
def processFiles (cfg : Config) (env : Env) (sourcedata_dir meg_raw_dir : String)
    (bad : List String) : List RawFileInfo → List Action × Except Err Unit
  | [] => ([], .ok ())
  | fi :: rest =>
    let s := processFile cfg env sourcedata_dir meg_raw_dir bad fi
    match s.2 with
    | .error e => (s.1, .error e)
    | .ok _ =>
      let t := processFiles cfg env sourcedata_dir meg_raw_dir bad rest
      (s.1 ++ t.1, t.2)

/-- The optional structural-MRI step at the end of `process_subject`. -/
def processMri (cfg : Config) (si : SubjectInfo) : List Action × Except Err Unit :=
  match si.mri_dcm_dir with
  | none =>
    ([Action.print "No MRI dicom directory provided. Skipping structural MRI conversion."], .ok ())
  | some d =>
    let sourcedata_dir := cfg.sourcedata_root ++ "/sub-" ++ si.bids_id
    ([Action.print "Converting structural MRI data to BIDS format.",
      Action.runCommand
        ("dcm2niix -o " ++ sourcedata_dir ++ " -f sub-" ++ si.bids_id ++ "_T1w -m y -z y " ++ d),
      Action.writeAnat (sourcedata_dir ++ "/sub-" ++ si.bids_id ++ "_T1w.nii.gz")],
     .ok ())

/-- The raw-file loop followed by the structural step, appended to a trace
already produced. -/
def continueSubject (cfg : Config) (env : Env) (si : SubjectInfo)
    (files : List RawFileInfo) (tr : List Action) : List Action × Except Err Unit :=
  let sourcedata_dir := cfg.sourcedata_root ++ "/sub-" ++ si.bids_id
  let lp := processFiles cfg env sourcedata_dir si.meg_raw_dir si.meg_bad_channels files
  match lp.2 with
  | .error e => (tr ++ lp.1, .error e)
  | .ok _ =>
    let mri := processMri cfg si
    (tr ++ lp.1 ++ mri.1, mri.2)

/-- `process_subject(subject_info, event_info)`: header actions, emptyroom
lookup, per-file conversion loop, structural step. -/
def processSubject (cfg : Config) (env : Env) (si : SubjectInfo) :
    List Action × Except Err Unit :=
  let header := subjectHeader cfg si
  match locateEmptyroom si.bids_id si.meg_raw_files with
  | .error e => (header, .error e)
  | .ok (none, files) =>
    continueSubject cfg env si files (header ++ [Action.print (noEmptyroomMsg si.bids_id)])
  | .ok (some er, files) =>
    match si.meg_emptyroom_dir with
    | none => (header, .error (.typeError "meg_emptyroom_dir is None"))
    | some d =>
      continueSubject cfg env si files (header ++ [Action.readRawFif (d ++ "/" ++ er.file)])

/-! ### Top-level subject loop (`__main__`, lines 479-494) -/

def Val.isNull : Val → Bool
  | .null => true
  | _ => false

/-- The unpacking of a subject record performed by `process_subject` (lines
267-271, 275 and 400).  Records whose fields do not have the shapes the
source subsequently relies on are collapsed into a `TypeError`. -/
def decodeRawFileVal (v : Val) : Except Err RawFileInfo :=
  match v with
  | .obj fields =>
    match valLookup fields "file", valLookup fields "run", valLookup fields "task" with
    | some (.str f), some (.str r), some (.str t) => .ok (RawFileInfo.mk f r t)
    | _, _, _ => .error (.typeError "raw file entry must have string file, run and task fields")
  | _ => .error (.typeError "raw file entry must be an object")

def decodeStringList (vs : List Val) : Except Err (List String) :=
  mapExcept
    (fun v =>
      match v with
      | .str s => .ok s
      | _ => .error (.typeError "expected a string"))
    vs

def decodeSubjectInfoTyped (info : List (String × Val)) : Except Err SubjectInfo :=
  match valLookup info "bids_id", valLookup info "meg_id", valLookup info "meg_raw_dir",
      valLookup info "meg_emptyroom_dir", valLookup info "meg_raw_files",
      valLookup info "meg_bad_channels", valLookup info "mri_dcm_dir" with
  | some (.str bids), some (.str mid), some (.str rawDir), some erDir, some (.list files),
      some (.list bad), some mriDir =>
    match mapExcept decodeRawFileVal files with
    | .error e => .error e
    | .ok files2 =>
      match decodeStringList bad with
      | .error e => .error e
      | .ok bad2 =>
        match erDir, mriDir with
        | .null, .null => .ok (SubjectInfo.mk bids mid rawDir none files2 bad2 none)
        | .null, .str m => .ok (SubjectInfo.mk bids mid rawDir none files2 bad2 (some m))
        | .str e2, .null => .ok (SubjectInfo.mk bids mid rawDir (some e2) files2 bad2 none)
        | .str e2, .str m => .ok (SubjectInfo.mk bids mid rawDir (some e2) files2 bad2 (some m))
        | _, _ => .error (.typeError "directory fields must be strings or None")
  | _, _, _, _, _, _, _ =>
    .error (.typeError "subject record does not have the expected field shapes")

/-- The `for ss in subject_info.keys()` loop: print the subject label, skip
the subject when its `bids_id` is `None`, otherwise run `process_subject`;
an exception raised by `process_subject` propagates and stops the loop. -/
def subjectLoop (cfg : Config) (env : Env) :
    List (String × List (String × Val)) → List Action × Except Err Unit
  | [] => ([], .ok ())
  | (ss, info) :: rest =>
    let hdr := [Action.print ("subject is: " ++ ss)]
    match valGetItem info "bids_id" with
    | .error e => (hdr, .error e)
    | .ok v =>
      if v.isNull then
        let t := subjectLoop cfg env rest
        (hdr ++ t.1, t.2)
      else
        match decodeSubjectInfoTyped info with
        | .error e => (hdr, .error e)
        | .ok si =>
          let s := processSubject cfg env si
          match s.2 with
          | .error e => (hdr ++ s.1, .error e)
          | .ok _ =>
            let t := subjectLoop cfg env rest
            (hdr ++ s.1 ++ [Action.print "Finished subject and moving on"] ++ t.1, t.2)

/-- The main flow relevant to the subject records: `_check_subject_info`
over the loaded subject dictionary, then the subject loop.  A validation
failure aborts before any subject is attempted. -/
def mainRun (cfg : Config) (env : Env) (fs : String → Bool)
    (subjects : List (String × List (String × Val))) : List Action × Except Err Unit :=
  match checkSubjectInfo fs subjects with
  | .error e => ([], .error e)
  | .ok _ => subjectLoop cfg env subjects

/-! ### Result-shape predicates and concrete inputs used in the theorems -/

/-- A raised `AssertionError`, the shape of every configuration check in the
source. -/
def isConfigError {α : Type} : Except Err α → Bool
  | .error (.assertError _) => true
  | _ => false

/-- A raised `KeyError` (an unhandled dictionary lookup failure). -/
def isKeyError {α : Type} : Except Err α → Bool
  | .error (.keyError _) => true
  | _ => false

/-- A filesystem on which every path exists. -/
def fsAll : String → Bool := fun _ => true

/-- A recording with two bit-line channels carrying overlapping pulses and a
silent combined channel. -/
def recDemo : Recording :=
  Recording.mk ["STI001", "STI002", "STI101"]
    (fun ch =>
      if ch = "STI001" then [0, 5, 5, 5, 0, 0]
      else if ch = "STI002" then [0, 0, 5, 5, 5, 0]
      else [0, 0, 0, 0, 0, 0])
    6 1000 false

/-- A recording that only has the combined `STI101` channel, silent. -/
def recSti101 : Recording :=
  Recording.mk ["STI101"] (fun _ => [0, 0, 0]) 3 1000 false

/-- A recording containing a non-STI channel that is nevertheless present. -/
def recMisc : Recording :=
  Recording.mk ["MISC001", "STI001"] (fun _ => [0, 0]) 2 1000 false

/-- A recording that has only the bit-line channel STI003. -/
def recSti003 : Recording :=
  Recording.mk ["STI003"] (fun _ => [0]) 1 1000 false

/-- A configuration with event-time adjustment disabled. -/
def cfgDemo : Config :=
  Config.mk "/data/sourcedata" "/data/rawdata" "triux"
    "/neuro_triux/databases/sss/sss_cal.dat" "/neuro_triux/databases/ctc/ct_sparse.fif"
    "/neuro_vectorview/databases/sss/sss_cal.dat" "/neuro_vectorview/databases/ctc/ct_sparse.fif"
    (.chanList ["STI001"]) false [] [] [] []
    ((28 : ℚ) / 1000) ((34 : ℚ) / 1000) 50 "mne_check_eeg_locations --file %s --fix"

/-- A configuration with event-time adjustment enabled, one auditory event
code (7) and one visual event code (9), and the CBU latencies. -/
def cfgAdj : Config :=
  Config.mk "/data/sourcedata" "/data/rawdata" "triux"
    "/neuro_triux/databases/sss/sss_cal.dat" "/neuro_triux/databases/ctc/ct_sparse.fif"
    "/neuro_vectorview/databases/sss/sss_cal.dat" "/neuro_vectorview/databases/ctc/ct_sparse.fif"
    (.chanList ["STI001"]) true ["spokenword"] ["writtenword"] [7] [9]
    ((28 : ℚ) / 1000) ((34 : ℚ) / 1000) 50 "mne_check_eeg_locations --file %s --fix"

/-- An environment in which every path reads as `recDemo`. -/
def envDemo : Env := Env.mk (fun _ => recDemo)

/-- A subject with two emptyroom entries in its file list. -/
def siTwoEr : SubjectInfo :=
  SubjectInfo.mk "01" "meg01" "/raw/meg01" (some "/raw/er")
    [RawFileInfo.mk "er1.fif" "emptyroom" "noise",
     RawFileInfo.mk "er2.fif" "emptyroom" "noise",
     RawFileInfo.mk "run1.fif" "01" "task"]
    [] none

/-- The `subject_info.json` record of `siTwoEr`. -/
def infoTwoEr : List (String × Val) :=
  [("bids_id", .str "01"), ("meg_id", .str "meg01"), ("meg_date", .str "2024-01-01"),
   ("meg_raw_dir", .str "/raw/meg01"), ("meg_emptyroom_dir", .str "/raw/er"),
   ("meg_raw_files", .list
     [.obj [("file", .str "er1.fif"), ("run", .str "emptyroom"), ("task", .str "noise")],
      .obj [("file", .str "er2.fif"), ("run", .str "emptyroom"), ("task", .str "noise")],
      .obj [("file", .str "run1.fif"), ("run", .str "01"), ("task", .str "task")]]),
   ("meg_bad_channels", .list []), ("mri_id", .null), ("mri_date", .null),
   ("mri_dcm_dir", .null)]

/-- A well-formed record for a second subject. -/
def infoGood : List (String × Val) :=
  [("bids_id", .str "02"), ("meg_id", .str "meg02"), ("meg_date", .str "2024-01-02"),
   ("meg_raw_dir", .str "/raw/meg02"), ("meg_emptyroom_dir", .null),
   ("meg_raw_files", .list
     [.obj [("file", .str "run1.fif"), ("run", .str "01"), ("task", .str "task")]]),
   ("meg_bad_channels", .list []), ("mri_id", .null), ("mri_date", .null),
   ("mri_dcm_dir", .null)]

/-- A record with all nine required keys and a null `bids_id`. -/
def rNullBids : List (String × Val) :=
  [("bids_id", .null), ("meg_id", .str "meg03"), ("meg_date", .str "2024-01-03"),
   ("meg_raw_dir", .str "/raw/meg03"), ("meg_emptyroom_dir", .null),
   ("meg_raw_files", .list
     [.obj [("file", .str "run1.fif"), ("run", .str "01"), ("task", .str "task")]]),
   ("meg_bad_channels", .list []), ("mri_id", .null), ("mri_date", .null),
   ("mri_dcm_dir", .null)]

/-- A record with all nine required keys, valid string ids, and no
`meg_date` key at all. -/
def rNoMegDate : List (String × Val) :=
  [("bids_id", .str "04"), ("meg_id", .str "meg04"),
   ("meg_raw_dir", .str "/raw/meg04"), ("meg_emptyroom_dir", .null),
   ("meg_raw_files", .list
     [.obj [("file", .str "run1.fif"), ("run", .str "01"), ("task", .str "task")]]),
   ("meg_bad_channels", .list []), ("mri_id", .null), ("mri_date", .null),
   ("mri_dcm_dir", .null)]

/-- A record with all nine required keys, an integer `bids_id`, and no
`meg_date` key. -/
def rIntBids : List (String × Val) :=
  [("bids_id", .int 1), ("meg_id", .str "meg05"),
   ("meg_raw_dir", .str "/raw/meg05"), ("meg_emptyroom_dir", .null),
   ("meg_raw_files", .list
     [.obj [("file", .str "run1.fif"), ("run", .str "01"), ("task", .str "task")]]),
   ("meg_bad_channels", .list []), ("mri_id", .null), ("mri_date", .null),
   ("mri_dcm_dir", .null)]

/-! ### Helper lemmas -/

theorem mapExcept_ok_eq {α β : Type} (f : α → Except Err β) (g : α → β)
    (hfg : ∀ a b, f a = .ok b → b = g a) :
    ∀ (l : List α) (out : List β), mapExcept f l = .ok out → out = l.map g := by
  intro l
  induction l with
  | nil =>
    intro out h
    simp only [mapExcept] at h
    injection h with h2
    rw [← h2, List.map_nil]
  | cons a t ih =>
    intro out h
    simp only [mapExcept] at h
    cases hfa : f a with
    | error e => rw [hfa] at h; cases h
    | ok b =>
      rw [hfa] at h
      cases hmt : mapExcept f t with
      | error e => rw [hmt] at h; cases h
      | ok bs =>
        rw [hmt] at h
        injection h with h2
        rw [← h2, List.map_cons, hfg a b hfa, ih bs hmt]

theorem mapExcept_error_of_mem {α β : Type} (f : α → Except Err β) :
    ∀ (l : List α) (x : α), x ∈ l → (∃ e, f x = .error e) →
      ∃ y ∈ l, ∃ e, f y = .error e ∧ mapExcept f l = .error e := by
  intro l
  induction l with
  | nil => intro x hx; cases hx
  | cons a t ih =>
    intro x hx hex
    cases hfa : f a with
    | error e =>
      exact ⟨a, List.mem_cons_self a t, e, hfa, by simp only [mapExcept, hfa]⟩
    | ok b =>
      have hxt : x ∈ t := by
        rcases List.mem_cons.mp hx with h | h
        · subst h
          obtain ⟨e, he⟩ := hex
          rw [hfa] at he
          cases he
        · exact h
      obtain ⟨y, hy, e, hfy, hmt⟩ := ih x hxt hex
      exact ⟨y, List.mem_cons_of_mem a hy, e, hfy, by simp only [mapExcept, hfa, hmt]⟩

theorem zip_self_map {α β : Type} (l : List α) (g : α → β) :
    l.zip (l.map g) = l.map (fun a => (a, g a)) := by
  induction l with
  | nil => rfl
  | cons a t ih => simp [List.zip_cons_cons, ih]

theorem erIdxFrom_length (l : List RawFileInfo) :
    ∀ n : Nat, (erIdxFrom n l).length = (l.filter (fun f => f.run == "emptyroom")).length := by
  induction l with
  | nil => intro n; rfl
  | cons f fs ih =>
    intro n
    cases hf : (f.run == "emptyroom") with
    | true => simp [erIdxFrom, List.filter_cons, hf, ih]
    | false => simp [erIdxFrom, List.filter_cons, hf, ih]

theorem erIdxFrom_mem (l : List RawFileInfo) :
    ∀ (n i : Nat), i ∈ erIdxFrom n l →
      n ≤ i ∧ (l.getD (i - n) rawFileDefault).run = "emptyroom" := by
  induction l with
  | nil => intro n i hi; cases hi
  | cons f fs ih =>
    intro n i hi
    unfold erIdxFrom at hi
    cases hf : (f.run == "emptyroom") with
    | true =>
      rw [hf] at hi
      simp only [if_true] at hi
      rcases List.mem_cons.mp hi with h | h
      · subst h
        refine ⟨Nat.le_refl _, ?_⟩
        simp only [Nat.sub_self, List.getD_cons_zero]
        exact beq_iff_eq.mp hf
      · obtain ⟨h1, h2⟩ := ih (n + 1) i h
        refine ⟨by omega, ?_⟩
        have heq : i - n = (i - (n + 1)) + 1 := by omega
        rw [heq, List.getD_cons_succ]
        exact h2
    | false =>
      rw [hf] at hi
      simp at hi
      obtain ⟨h1, h2⟩ := ih (n + 1) i hi
      refine ⟨by omega, ?_⟩
      have heq : i - n = (i - (n + 1)) + 1 := by omega
      rw [heq, List.getD_cons_succ]
      exact h2

theorem sortStrings_perm (l : List String) : (sortStrings l).Perm l :=
  List.perm_insertionSort _ l

theorem sortStrings_eq_of_perm {l₁ l₂ : List String} (h : l₁.Perm l₂) :
    sortStrings l₁ = sortStrings l₂ :=
  List.eq_of_perm_of_sorted
    (((sortStrings_perm l₁).trans h).trans (sortStrings_perm l₂).symm)
    (List.sorted_insertionSort _ l₁)
    (List.sorted_insertionSort _ l₂)

theorem stiDecimalTable_names : stiDecimalTable.map Prod.fst = stiChannels := by decide

theorem stiDecimalLut_none_iff (ch : String) :
    stiDecimalLut ch = none ↔ ch ∉ stiChannels := by
  unfold stiDecimalLut
  rw [Option.map_eq_none', List.find?_eq_none]
  constructor
  · intro h hmem
    rw [← stiDecimalTable_names] at hmem
    obtain ⟨pr, hpr, hfst⟩ := List.mem_map.mp hmem
    exact (h pr hpr) (beq_iff_eq.mpr hfst)
  · intro h pr hpr hbeq
    exact h (stiDecimalTable_names ▸ List.mem_map.mpr ⟨pr, hpr, beq_iff_eq.mp hbeq⟩)

/-! ### Claim C1 -/

/-- C1 counterexample: ["STI002"] is a resolved (accepted, sorted) trigger
channel list; the channel at zero-based sorted position 0 has its positive
raw value replaced by 2 (the value determined by the name STI002), not by
2^0 = 1 as the claim predicts from its sorted position. -/
theorem c1_counterexample :
    (checkEventChannels (.chanList ["STI002"]) ["STI002"]).2 = .ok (.chanList ["STI002"]) ∧
    sortStrings ["STI002"] = ["STI002"] ∧
    stiToDecimal [[5]] ["STI002"] = .ok [[2]] ∧
    (2 : Nat) ≠ 2 ^ 0 :=
  ⟨rfl, rfl, rfl, by decide⟩

/-- C1 (amended): the decoder replaces a positive raw value on a channel by
the weight determined by the channel's NAME through the fixed look-up table
over STI001..STI016 (so STI00N carries 2^(N-1)), independently of the
channel's position in the resolved sorted list; zero samples remain 0. -/
theorem c1_weights :
    (∀ k, k < 16 → stiDecimalLut (stiName (k + 1)) = some (2 ^ k)) ∧
    (∀ (channels : List String) (rows out : List (List Nat)),
      stiToDecimal rows channels = .ok out →
      out = (channels.zip rows).map
        (fun p => p.2.map (fun v => if 0 < v then stiWeight p.1 else 0))) := by
  constructor
  · decide
  · intro channels rows out h
    refine mapExcept_ok_eq stiChannelDecode _ ?_ _ _ h
    intro p b hfb
    cases hlut : stiDecimalLut p.1 with
    | none => unfold stiChannelDecode at hfb; rw [hlut] at hfb; cases hfb
    | some w =>
      unfold stiChannelDecode at hfb
      rw [hlut] at hfb
      injection hfb with hb
      rw [← hb]
      unfold stiWeight
      rw [hlut]
      rfl

/-- C1 witness: STI003 carries 2^2 = 4, and a concrete decode replaces the
positive sample accordingly. -/
theorem c1_weights_witness :
    stiDecimalLut (stiName 3) = some (2 ^ 2) ∧
    ([[4, 0]] : List (List Nat)) = ((["STI003"].zip [[5, 0]]).map
      (fun p => p.2.map (fun v => if 0 < v then stiWeight p.1 else 0))) :=
  ⟨c1_weights.1 2 (by decide), c1_weights.2 ["STI003"] [[5, 0]] [[4, 0]] rfl⟩

/-! ### Claim C3 -/

/-- C3 (confirmed): whenever some configured channel name (in either the
list form or the stim/resp mapping form) is absent from the recording's
channel names, the resolver emits a warning and returns the singleton
["STI101"] if STI101 is present, and fails with the configuration assertion
if STI101 is absent too. -/
theorem c3_resolver (ec : EventChannels) (ch_names : List String)
    (habs : ∃ ch ∈ configuredChannels ec, ch ∉ ch_names) :
    ("STI101" ∈ ch_names →
      (checkEventChannels ec ch_names).2 = .ok (.chanList ["STI101"]) ∧
      (checkEventChannels ec ch_names).1 ≠ []) ∧
    ("STI101" ∉ ch_names →
      (checkEventChannels ec ch_names).2 = .error (.assertError sti101NotFoundMsg)) := by
  cases ec with
  | chanList channels =>
    simp only [configuredChannels] at habs
    constructor
    · intro h101
      simp only [checkEventChannels]
      rw [if_pos habs, if_pos h101]
      exact ⟨rfl, by simp⟩
    · intro h101
      simp only [checkEventChannels]
      rw [if_pos habs, if_neg h101]
  | stimResp stim resp =>
    simp only [configuredChannels] at habs
    by_cases hs : ∃ ch ∈ stim, ch ∉ ch_names
    · constructor
      · intro h101
        simp only [checkEventChannels]
        rw [if_pos hs, if_pos h101]
        exact ⟨rfl, by simp⟩
      · intro h101
        simp only [checkEventChannels]
        rw [if_pos hs, if_neg h101]
    · have hr : ∃ ch ∈ resp, ch ∉ ch_names := by
        obtain ⟨ch, hch, hn⟩ := habs
        rcases List.mem_append.mp hch with h1 | h2
        · exact absurd ⟨ch, h1, hn⟩ hs
        · exact ⟨ch, h2, hn⟩
      constructor
      · intro h101
        simp only [checkEventChannels]
        rw [if_neg hs, if_pos hr, if_pos h101]
        exact ⟨rfl, by simp⟩
      · intro h101
        simp only [checkEventChannels]
        rw [if_neg hs, if_pos hr, if_neg h101]

/-- C3 witness: a configured channel absent from a recording that has
STI101 resolves to the singleton ["STI101"]. -/
theorem c3_resolver_witness :
    (checkEventChannels (.chanList ["STI001"]) ["STI101"]).2 = .ok (.chanList ["STI101"]) :=
  ((c3_resolver (.chanList ["STI001"]) ["STI101"]
    ⟨"STI001", by decide, by decide⟩).1 (by decide)).1

/-! ### Claim C4 -/

/-- C4 counterexample: with the same channel in both roles but a recording
that lacks that channel (and has STI101), the resolver silently falls back
to ["STI101"] and events ARE computed; the overlapping configuration is not
rejected, contradicting the claim's quantification over every recording. -/
theorem c4_counterexample :
    (checkEventChannels (.stimResp ["STI003"] ["STI003"]) recSti101.ch_names).2 =
      .ok (.chanList ["STI101"]) ∧
    (getEventsFromStiChannels recSti101 (.stimResp ["STI003"] ["STI003"])).2 = .ok [] :=
  ⟨rfl, rfl⟩

/-- C4 (amended): provided every configured stim/resp channel is present in
the recording, a configuration whose stim and resp lists overlap, or that
mentions STI101 in either role, is rejected with a fatal configuration
assertion before any decoding, and no events are computed. -/
theorem c4_overlap (stim resp ch_names : List String)
    (hpres : ∀ ch ∈ stim ++ resp, ch ∈ ch_names)
    (hbad : (∃ ch ∈ stim, ch ∈ resp) ∨ "STI101" ∈ stim ∨ "STI101" ∈ resp) :
    isConfigError (checkEventChannels (.stimResp stim resp) ch_names).2 = true ∧
    ∀ raw : Recording, raw.ch_names = ch_names →
      isConfigError (getEventsFromStiChannels raw (.stimResp stim resp)).2 = true := by
  have hs : ¬ ∃ ch ∈ stim, ch ∉ ch_names := by
    rintro ⟨ch, hch, hn⟩
    exact hn (hpres ch (List.mem_append.mpr (Or.inl hch)))
  have hr : ¬ ∃ ch ∈ resp, ch ∉ ch_names := by
    rintro ⟨ch, hch, hn⟩
    exact hn (hpres ch (List.mem_append.mpr (Or.inr hch)))
  have hchk : isConfigError (checkEventChannels (.stimResp stim resp) ch_names).2 = true := by
    simp only [checkEventChannels]
    rw [if_neg hs, if_neg hr]
    by_cases h101 : "STI101" ∈ stim ∨ "STI101" ∈ resp
    · rw [if_pos h101]
      rfl
    · have hover : ∃ ch ∈ stim, ch ∈ resp := by
        rcases hbad with h | h | h
        · exact h
        · exact absurd (Or.inl h) h101
        · exact absurd (Or.inr h) h101
      rw [if_neg h101, if_pos hover]
      rfl
  refine ⟨hchk, ?_⟩
  intro raw hraw
  simp only [getEventsFromStiChannels]
  rw [hraw]
  cases hres : (checkEventChannels (.stimResp stim resp) ch_names).2 with
  | error e =>
    cases e with
    | assertError m => rfl
    | keyError k => rw [hres] at hchk; cases hchk
    | valueError m => rw [hres] at hchk; cases hchk
    | typeError m => rw [hres] at hchk; cases hchk
  | ok ec => rw [hres] at hchk; cases hchk

/-- C4 witness: stim = resp = ["STI003"] on a recording that has STI003 is
rejected before decoding. -/
theorem c4_overlap_witness :
    isConfigError (getEventsFromStiChannels recSti003 (.stimResp ["STI003"] ["STI003"])).2 = true :=
  (c4_overlap ["STI003"] ["STI003"] ["STI003"] (by decide)
    (Or.inl ⟨"STI003", by decide, by decide⟩)).2 recSti003 rfl

/-! ### Claim C9 -/

/-- C9 counterexample: a record with all nine enumerated keys and no
meg_date, whose bids_id is an integer, fails with the descriptive bids_id
assertion rather than a key-lookup error, so the claim's universal second
half is too strong as stated. -/
theorem c9_counterexample :
    required_keys.all (fun k => (valLookup rIntBids k).isSome) = true ∧
    (valLookup rIntBids "meg_date").isNone = true ∧
    checkSubjectRecord fsAll "s1" rIntBids =
      .error (.assertError (strKeyMsg "s1" "bids_id")) ∧
    isKeyError (checkSubjectRecord fsAll "s1" rIntBids) = false :=
  ⟨rfl, rfl, rfl, rfl⟩

/-- C9 (amended): the validator passes only records that also carry a
meg_date, and on every record that has the nine enumerated keys, whose
bids_id and meg_id are non-empty strings, but which lacks meg_date,
validation fails with an unhandled KeyError for meg_date rather than a
descriptive assertion. -/
theorem c9_meg_date (fs : String → Bool) (sub_id : String) (info : List (String × Val))
    (h9 : required_keys.all (fun k => (valLookup info k).isSome) = true)
    (hb : ∃ s, valLookup info "bids_id" = some (.str s) ∧ s ≠ "")
    (hm : ∃ s, valLookup info "meg_id" = some (.str s) ∧ s ≠ "")
    (hd : valLookup info "meg_date" = none) :
    checkSubjectRecord fs sub_id info = .error (.keyError "meg_date") := by
  obtain ⟨sb, hsb, hsbne⟩ := hb
  obtain ⟨sm, hsm, hsmne⟩ := hm
  have hcb : checkStrKey sub_id info "bids_id" = .ok () := by
    unfold checkStrKey valGetItem
    rw [hsb]
    simp [hsbne]
  have hcm : checkStrKey sub_id info "meg_id" = .ok () := by
    unfold checkStrKey valGetItem
    rw [hsm]
    simp [hsmne]
  have hcd : checkStrKey sub_id info "meg_date" = .error (.keyError "meg_date") := by
    unfold checkStrKey valGetItem
    rw [hd]
  unfold checkSubjectRecord
  simp only [h9, if_true, hcb, hcm, hcd]

/-- C9 witness: a concrete record with the nine keys, valid ids and no
meg_date fails with KeyError meg_date. -/
theorem c9_meg_date_witness :
    checkSubjectRecord fsAll "s1" rNoMegDate = .error (.keyError "meg_date") :=
  c9_meg_date fsAll "s1" rNoMegDate rfl ⟨"04", rfl, by decide⟩ ⟨"meg04", rfl, by decide⟩ rfl

/-! ### Claim C7 -/

/-- C7 (code_bug evaluation): the loop's explicit skip branch documents that
a null bids_id means "skip the subject and continue", but the validator
asserts bids_id is a non-empty string, so a record with a null bids_id
aborts the whole run during validation, before any subject is attempted;
the skip branch is unreachable in the main flow. -/
theorem c7_null_bids :
    checkSubjectRecord fsAll "sub1" rNullBids =
      .error (.assertError (strKeyMsg "sub1" "bids_id")) ∧
    mainRun cfgDemo envDemo fsAll [("sub1", rNullBids)] =
      ([], .error (.assertError (strKeyMsg "sub1" "bids_id"))) :=
  ⟨rfl, rfl⟩

/-! ### Claim C10 -/

/-- C10 counterexample: the resolved list ["STI101"] contains a name outside
STI001..STI016 that is present in the recording and accepted by the
resolver, yet decoding succeeds through the combined-channel path with no
lookup error, so the claim's quantification over every such list fails. -/
theorem c10_counterexample :
    ("STI101" ∉ stiChannels) ∧
    (checkEventChannels (.chanList ["STI101"]) recSti101.ch_names).2 =
      .ok (.chanList ["STI101"]) ∧
    (getEventsFromStiChannels recSti101 (.chanList ["STI101"])).2 = .ok [] :=
  ⟨by decide, rfl, rfl⟩

/-- C10 (amended): for every resolved list-form configuration that does not
mention STI101, whose channels are all present in the recording, and which
contains some name outside STI001..STI016, the resolver accepts the
configuration but the per-channel weight lookup fails with an unhandled
KeyError during decoding. -/
theorem c10_lookup (raw : Recording) (l : List String) (ch : String)
    (hpres : ∀ c ∈ l, c ∈ raw.ch_names)
    (hno : "STI101" ∉ l) (hch : ch ∈ l) (hout : ch ∉ stiChannels) :
    (checkEventChannels (.chanList l) raw.ch_names).2 = .ok (.chanList l) ∧
    isKeyError (getEventsFromStiChannels raw (.chanList l)).2 = true := by
  have habs : ¬ ∃ c ∈ l, c ∉ raw.ch_names := by
    rintro ⟨c, hc, hn⟩
    exact hn (hpres c hc)
  have hchk : (checkEventChannels (.chanList l) raw.ch_names).2 = .ok (.chanList l) := by
    simp only [checkEventChannels]
    rw [if_neg habs, if_neg hno]
  refine ⟨hchk, ?_⟩
  simp only [getEventsFromStiChannels]
  rw [hchk]
  simp only [getEventsChecked]
  have hno2 : "STI101" ∉ sortStrings l := fun hc => hno ((sortStrings_perm l).mem_iff.mp hc)
  rw [if_neg hno2]
  have hch2 : ch ∈ sortStrings l := (sortStrings_perm l).mem_iff.mpr hch
  have hzip : (ch, raw.data ch) ∈ (sortStrings l).zip (getData raw (sortStrings l)) := by
    unfold getData
    rw [zip_self_map]
    exact List.mem_map.mpr ⟨ch, hch2, rfl⟩
  have hlutnone : stiDecimalLut ch = none := (stiDecimalLut_none_iff ch).mpr hout
  have hferr : stiChannelDecode (ch, raw.data ch) = .error (.keyError ch) := by
    unfold stiChannelDecode
    rw [hlutnone]
  obtain ⟨y, hy, e, hfy, hmap⟩ :=
    mapExcept_error_of_mem stiChannelDecode _ _ hzip ⟨_, hferr⟩
  unfold stiToDecimal
  rw [hmap]
  cases hlut2 : stiDecimalLut y.1 with
  | some w =>
    unfold stiChannelDecode at hfy
    rw [hlut2] at hfy
    cases hfy
  | none =>
    unfold stiChannelDecode at hfy
    rw [hlut2] at hfy
    injection hfy with h2
    rw [← h2]
    rfl

/-- C10 witness: a present non-STI channel passes the resolver and then
raises a KeyError in the decoder. -/
theorem c10_lookup_witness :
    isKeyError (getEventsFromStiChannels recMisc (.chanList ["MISC001", "STI001"])).2 = true :=
  (c10_lookup recMisc ["MISC001", "STI001"] "MISC001"
    (by decide) (by decide) (by decide) (by decide)).2

/-! ### Evaluation of the latency shifts at the concrete rates -/

theorem shiftSamples_audio_1000 : shiftSamples ((28 : ℚ) / 1000) 1000 = 28 := by
  norm_num [shiftSamples, pyInt]
  decide

theorem shiftSamples_visual_1000 : shiftSamples ((34 : ℚ) / 1000) 1000 = 34 := by
  norm_num [shiftSamples, pyInt]
  decide

theorem shiftSamples_audio_100 : shiftSamples ((28 : ℚ) / 1000) 100 = 2 := by
  norm_num [shiftSamples, pyInt]
  decide

theorem shiftSamples_visual_100 : shiftSamples ((34 : ℚ) / 1000) 100 = 3 := by
  norm_num [shiftSamples, pyInt]
  decide

theorem round_audio_100 : round ((28 : ℚ) / 1000 * 100) = 3 := by
  norm_num [round_eq]

/-! ### Claim C5 -/

theorem continueSubject_trace_prefix (cfg : Config) (env : Env) (si : SubjectInfo)
    (files : List RawFileInfo) (tr : List Action) (a : Action) (ha : a ∈ tr) :
    a ∈ (continueSubject cfg env si files tr).1 := by
  simp only [continueSubject]
  cases hlp : (processFiles cfg env (cfg.sourcedata_root ++ "/sub-" ++ si.bids_id)
      si.meg_raw_dir si.meg_bad_channels files).2 with
  | error e => simp [List.mem_append, ha]
  | ok u => simp [List.mem_append, ha]

/-- C5 counterexample: with two emptyroom entries the subject driver does
raise the subject-naming error, but the calibration and cross-talk files
have already been written into the dataset before the check, so dataset
output IS written for that subject before the error, contradicting the
claim's "no dataset write of any kind occurs before the error". -/
theorem c5_counterexample :
    processSubject cfgDemo envDemo siTwoEr =
      (subjectHeader cfgDemo siTwoEr, .error (.valueError (multiErMsg "01"))) ∧
    Action.writeMegCalibration "/neuro_triux/databases/sss/sss_cal.dat" ∈
      (processSubject cfgDemo envDemo siTwoEr).1 ∧
    Action.writeMegCrosstalk "/neuro_triux/databases/ctc/ct_sparse.fif" ∈
      (processSubject cfgDemo envDemo siTwoEr).1 :=
  ⟨rfl, by decide, by decide⟩

/-- C5 (amended): more than one emptyroom entry raises a fatal ValueError
whose message names the subject, and no recording is written
(`write_raw_bids` never occurs; the calibration and cross-talk writes have
already happened); exactly one entry is popped from the list and returned
separately; zero entries proceed without a baseline and print a notice. -/
theorem c5_emptyroom (cfg : Config) (env : Env) (si : SubjectInfo) :
    (1 < (si.meg_raw_files.filter (fun f => f.run == "emptyroom")).length →
      processSubject cfg env si =
        (subjectHeader cfg si, .error (.valueError (multiErMsg si.bids_id))) ∧
      (∃ pre post, multiErMsg si.bids_id = pre ++ si.bids_id ++ post) ∧
      (∀ r t, Action.writeRawBids r t ∉ (processSubject cfg env si).1)) ∧
    ((si.meg_raw_files.filter (fun f => f.run == "emptyroom")).length = 1 →
      ∃ i, erIdx si.meg_raw_files = [i] ∧
        (si.meg_raw_files.getD i rawFileDefault).run = "emptyroom" ∧
        locateEmptyroom si.bids_id si.meg_raw_files =
          .ok (some (si.meg_raw_files.getD i rawFileDefault), si.meg_raw_files.eraseIdx i)) ∧
    ((si.meg_raw_files.filter (fun f => f.run == "emptyroom")).length = 0 →
      locateEmptyroom si.bids_id si.meg_raw_files = .ok (none, si.meg_raw_files) ∧
      Action.print (noEmptyroomMsg si.bids_id) ∈ (processSubject cfg env si).1) := by
  have hlen : (erIdx si.meg_raw_files).length
      = (si.meg_raw_files.filter (fun f => f.run == "emptyroom")).length :=
    erIdxFrom_length si.meg_raw_files 0
  refine ⟨?_, ?_, ?_⟩
  · intro hcount
    have h2 : 1 < (erIdx si.meg_raw_files).length := by rw [hlen]; exact hcount
    have hne : ¬ erIdx si.meg_raw_files = [] := by
      intro h0
      rw [h0] at h2
      simp at h2
    have hloc : locateEmptyroom si.bids_id si.meg_raw_files =
        .error (.valueError (multiErMsg si.bids_id)) := by
      simp only [locateEmptyroom]
      rw [if_neg hne, if_pos h2]
    have hps : processSubject cfg env si =
        (subjectHeader cfg si, .error (.valueError (multiErMsg si.bids_id))) := by
      simp only [processSubject, hloc]
    refine ⟨hps, ⟨"Multiple emptyroom files found for sub-",
      ". Please check the subject_info.json file.", rfl⟩, ?_⟩
    intro r t
    rw [hps]
    simp [subjectHeader]
  · intro hcount
    have h1 : (erIdx si.meg_raw_files).length = 1 := by rw [hlen]; exact hcount
    obtain ⟨i, rest, herIdx⟩ : ∃ i rest, erIdx si.meg_raw_files = i :: rest := by
      cases h : erIdx si.meg_raw_files with
      | nil => rw [h] at h1; cases h1
      | cons a t => exact ⟨a, t, rfl⟩
    have hrest : rest = [] := by
      rw [herIdx] at h1
      simpa using h1
    subst hrest
    have hmem : i ∈ erIdx si.meg_raw_files := by
      rw [herIdx]
      exact List.mem_cons_self i []
    have hrun := (erIdxFrom_mem si.meg_raw_files 0 i hmem).2
    simp only [Nat.sub_zero] at hrun
    refine ⟨i, herIdx, hrun, ?_⟩
    simp only [locateEmptyroom]
    rw [herIdx]
    simp
  · intro hcount
    have h0 : erIdx si.meg_raw_files = [] :=
      List.length_eq_zero.mp (by rw [hlen]; exact hcount)
    have hloc : locateEmptyroom si.bids_id si.meg_raw_files = .ok (none, si.meg_raw_files) := by
      simp only [locateEmptyroom]
      rw [if_pos h0]
    refine ⟨hloc, ?_⟩
    simp only [processSubject, hloc]
    exact continueSubject_trace_prefix cfg env si si.meg_raw_files _ _
      (List.mem_append.mpr (Or.inr (List.mem_cons_self _ [])))

/-- C5 witness: the two-emptyroom subject fails with the subject-naming
error without any recording write. -/
theorem c5_emptyroom_witness :
    processSubject cfgDemo envDemo siTwoEr =
      (subjectHeader cfgDemo siTwoEr, .error (.valueError (multiErMsg siTwoEr.bids_id))) :=
  ((c5_emptyroom cfgDemo envDemo siTwoEr).1 (by decide)).1

/-! ### Claim C6 -/

/-- C6 counterexample: two subjects, the first of which fails (two emptyroom
files); the second subject is never attempted (its loop header print never
occurs) and the whole run ends with the first subject's error, contradicting
the claim that the loop still attempts subject N+1. -/
theorem c6_counterexample :
    (subjectLoop cfgDemo envDemo [("s1", infoTwoEr), ("s2", infoGood)]).2 =
      .error (.valueError (multiErMsg "01")) ∧
    Action.print ("subject is: " ++ "s2") ∉
      (subjectLoop cfgDemo envDemo [("s1", infoTwoEr), ("s2", infoGood)]).1 :=
  ⟨rfl, by decide⟩

/-- C6 (amended): a failure while processing subject N aborts the top-level
loop, so subjects after N are never attempted (the loop's outcome is the
same as if the failing subject were the last), and within one subject's
file loop a failure is terminal for the remaining files. -/
theorem c6_loop :
    (∀ (cfg : Config) (env : Env) (ss : String) (info : List (String × Val))
        (rest : List (String × List (String × Val))) (v : Val) (si : SubjectInfo) (e : Err),
      valGetItem info "bids_id" = .ok v → v.isNull = false →
      decodeSubjectInfoTyped info = .ok si →
      (processSubject cfg env si).2 = .error e →
      subjectLoop cfg env ((ss, info) :: rest) = subjectLoop cfg env [(ss, info)]) ∧
    (∀ (cfg : Config) (env : Env) (sd rd : String) (bad : List String)
        (fi : RawFileInfo) (rest : List RawFileInfo) (e : Err),
      (processFile cfg env sd rd bad fi).2 = .error e →
      processFiles cfg env sd rd bad (fi :: rest) = processFiles cfg env sd rd bad [fi]) := by
  constructor
  · intro cfg env ss info rest v si e hv hnull hdec herr
    simp only [subjectLoop, hv, hnull, hdec]
    cases hs : (processSubject cfg env si).2 with
    | error e2 => simp
    | ok u => rw [herr] at hs; cases hs
  · intro cfg env sd rd bad fi rest e herr
    simp only [processFiles, herr]

/-- C6 witness: the two-subject run aborts after the first subject exactly
as the one-subject run does. -/
theorem c6_loop_witness :
    subjectLoop cfgDemo envDemo [("s1", infoTwoEr), ("s2", infoGood)] =
      subjectLoop cfgDemo envDemo [("s1", infoTwoEr)] :=
  c6_loop.1 cfgDemo envDemo "s1" infoTwoEr [("s2", infoGood)] (.str "01") siTwoEr
    (.valueError (multiErMsg "01")) rfl rfl rfl rfl

/-! ### Claim C2 -/

/-- C2 counterexample: at sampling rate 100 Hz the corrector adds
int(0.028 × 100) = 2 samples, not round(0.028 × 100) = 3: an auditory event
at onset 1000 becomes 1002, while the claim's round-based shift predicts
1003, so the claim's round(latency × rate) formula fails at this rate. -/
theorem c2_counterexample :
    (adjustEventTimes cfgAdj 100 [Event.mk 1000 0 7]).2 = [Event.mk 1002 0 7] ∧
    round (cfgAdj.audio_latency_sec * 100) = 3 ∧
    (1002 : Nat) ≠ 1000 + (round (cfgAdj.audio_latency_sec * 100)).toNat := by
  have hr : round (cfgAdj.audio_latency_sec * 100) = 3 := by
    simp only [cfgAdj]
    exact round_audio_100
  refine ⟨?_, hr, ?_⟩
  · simp [adjustEventTimes, cfgAdj, applyShift,
      shiftSamples_audio_100, shiftSamples_visual_100]
  · rw [hr]
    decide

/-- C2 (amended): when adjustment is enabled and both name lists are
non-empty, every event whose code is in the auditory set has its onset
shifted by int(audio_latency × rate) samples (truncation, not rounding),
every event whose code is in the visual set by int(visual_latency × rate),
and every other event is unchanged; at 1000 Hz these shifts are exactly 28
and 34 samples. -/
theorem c2_adjust (cfg : Config) (sfreq : ℚ) (events : List Event)
    (hadj : cfg.adjust_event_times = true)
    (ha : cfg.auditory_event_names.isEmpty = false)
    (hv : cfg.visual_event_names.isEmpty = false)
    (hdisj : ∀ c ∈ cfg.auditory_event_values, c ∉ cfg.visual_event_values) :
    (adjustEventTimes cfg sfreq events).2 = events.map (fun e =>
      if e.code ∈ cfg.auditory_event_values then
        Event.mk (e.onset + shiftSamples cfg.audio_latency_sec sfreq) e.prev e.code
      else if e.code ∈ cfg.visual_event_values then
        Event.mk (e.onset + shiftSamples cfg.visual_latency_sec sfreq) e.prev e.code
      else e) := by
  simp only [adjustEventTimes, hadj, ha, hv, if_true, Bool.false_eq_true, if_false,
    applyShift, List.map_map]
  apply List.map_congr_left
  intro e he
  by_cases hc : e.code ∈ cfg.auditory_event_values
  · have hnc : e.code ∉ cfg.visual_event_values := hdisj e.code hc
    simp [Function.comp, hc, hnc]
  · by_cases hc2 : e.code ∈ cfg.visual_event_values
    · simp [Function.comp, hc, hc2]
    · simp [Function.comp, hc, hc2]

/-- C2 witness: at 1000 Hz the auditory shift is 28 samples and the visual
shift 34; an auditory event at onset 1000 becomes 1028, a visual event at
2000 becomes 2034, and an event in neither set is unchanged. -/
theorem c2_adjust_witness :
    (adjustEventTimes cfgAdj 1000
        [Event.mk 1000 0 7, Event.mk 2000 0 9, Event.mk 500 0 5]).2 =
      [Event.mk 1028 0 7, Event.mk 2034 0 9, Event.mk 500 0 5] := by
  rw [c2_adjust cfgAdj 1000 _ rfl rfl rfl (by decide)]
  simp [cfgAdj, shiftSamples_audio_1000, shiftSamples_visual_1000]

/-! ### Claim C8 -/

/-- C8 (confirmed): decoding is invariant to the order in which the
bit-line channel names are configured: for any permutation of the same
names, the resolver takes the same branches and the decoder works on the
same sorted list, so the warnings and the resulting events are identical. -/
theorem c8_perm_invariance (raw : Recording) (l₁ l₂ : List String) (h : l₁.Perm l₂) :
    getEventsFromStiChannels raw (.chanList l₁) = getEventsFromStiChannels raw (.chanList l₂) := by
  have hmem : ∀ a : String, a ∈ l₁ ↔ a ∈ l₂ := fun a => h.mem_iff
  have hsort : sortStrings l₁ = sortStrings l₂ := sortStrings_eq_of_perm h
  simp only [getEventsFromStiChannels, checkEventChannels]
  by_cases habs : ∃ ch ∈ l₁, ch ∉ raw.ch_names
  · have habs2 : ∃ ch ∈ l₂, ch ∉ raw.ch_names := by
      obtain ⟨c, hc, hn⟩ := habs
      exact ⟨c, (hmem c).mp hc, hn⟩
    rw [if_pos habs, if_pos habs2]
  · have habs2 : ¬ ∃ ch ∈ l₂, ch ∉ raw.ch_names := by
      rintro ⟨c, hc, hn⟩
      exact habs ⟨c, (hmem c).mpr hc, hn⟩
    rw [if_neg habs, if_neg habs2]
    by_cases h101 : "STI101" ∈ l₁
    · have h101b : "STI101" ∈ l₂ := (hmem _).mp h101
      rw [if_pos h101, if_pos h101b]
      by_cases hlen : l₁.length = 1
      · have hl : l₁ = l₂ := by
          cases l₁ with
          | nil => cases hlen
          | cons a t =>
            cases t with
            | nil => exact (List.perm_singleton.mp h.symm).symm
            | cons b t2 => simp at hlen
        rw [hl]
      · have hlen2 : ¬ l₂.length = 1 := by
          rw [← h.length_eq]
          exact hlen
        rw [if_neg hlen, if_neg hlen2]
    · have h101b : "STI101" ∉ l₂ := fun hc => h101 ((hmem _).mpr hc)
      rw [if_neg h101, if_neg h101b]
      simp only [getEventsChecked]
      rw [hsort]

/-- C8 witness: the two orders of the same two bit-line channels produce
identical results on a concrete recording. -/
theorem c8_perm_invariance_witness :
    getEventsFromStiChannels recDemo (.chanList ["STI002", "STI001"]) =
      getEventsFromStiChannels recDemo (.chanList ["STI001", "STI002"]) :=
  c8_perm_invariance recDemo ["STI002", "STI001"] ["STI001", "STI002"]
    (List.Perm.swap "STI001" "STI002" [])

end Meg
